import Mathlib

/-!
Verification of the result-normalization and geospatial post-processing
pipeline of the realstate-api repository (app/services/scraper.py together
with the pydantic response model in app/schemas/property.py).

The embedding models Python runtime values as a closed tagged sum `RVal`
(as recommended by the design notes of the specification for the
duck-typed dispatch of `convert_value`).  Python floats are modelled by
`PyF`: an exact rational, NaN, or a signed infinity.  The three
float-valued library operations whose exact IEEE-754 results are not
representable in an exact embedding — the finite-argument value of the
haversine formula, round(x, 2), and float(string) parsing — are abstracted
into a `FloatOps` record; all theorems that do not depend on the numeric
value of a distance quantify over every `FloatOps`.  The real-number
haversine formula itself is transcribed separately as `haversineReal` for
reference.

The pydantic model step `Property(**cleaned)` (line 233 of scraper.py) is
modelled from app/schemas/property.py: the class declares the fields
listed in `fieldsTable`, has no model_config, and therefore uses the
pydantic v2 defaults — extra keyword arguments are silently dropped
(extra equals ignore), and reading an attribute that is not a declared
field raises AttributeError.  Field validation is modelled by
`coerceField` as the identity on values of the annotated type plus the
int-to-float widening; the lax string-to-number and int-to-bool coercions
of pydantic are not modelled (no theorem below depends on them), and a
value rejected by validation yields a ValidationError that aborts the
batch, as in the source.
-/

namespace RealEstate

/-- Python exception kinds that the modelled code can raise or catch.
`otherError` stands for every exception class that is none of the ones the
source mentions by name (for example a RuntimeError or a
decimal.InvalidOperation escaping from a comparison inside pandas
isna). -/
inductive PyExc where
  | valueError
  | typeError
  | attributeError
  | validationError
  | otherError
deriving DecidableEq

/-- Model of a Python float: an exact finite rational, NaN, or a signed
infinity (`inf true` is negative infinity). -/
inductive PyF where
  | finite (q : ℚ)
  | nan
  | inf (neg : Bool)
deriving DecidableEq

/-- math.isnan / numpy.isnan on the float model. -/
def PyF.isNan : PyF → Bool
  | .nan => true
  | _ => false

/-- Whether the float is one of the two infinities. -/
def PyF.isInf : PyF → Bool
  | .inf _ => true
  | _ => false

/-- Whether the Python float subtraction a - b yields an infinity
(needed to decide whether the haversine body feeds an infinity into
math.sin, which raises ValueError).  inf - inf of equal signs is NaN,
of opposite signs an infinity; an infinity minus a finite value or a
finite value minus an infinity is an infinity; NaN operands give NaN. -/
def PyF.subIsInf : PyF → PyF → Bool
  | .inf b1, .inf b2 => b1 != b2
  | .inf _, .finite _ => true
  | .finite _, .inf _ => true
  | _, _ => false

/-- Python comparison a < b on floats; every comparison with NaN is
False. -/
def PyF.lt : PyF → PyF → Bool
  | .finite a, .finite b => decide (a < b)
  | .finite _, .inf b => !b
  | .inf b, .finite _ => b
  | .inf b1, .inf b2 => b1 && !b2
  | _, _ => false

/-- Python comparison f <= r against a finite rational r; False for NaN,
true for negative infinity, false for positive infinity. -/
def PyF.leQ : PyF → ℚ → Bool
  | .finite a, r => decide (a ≤ r)
  | .nan, _ => false
  | .inf b, _ => b

mutual
/-- Model of a raw provider value (one DataFrame cell, or one value inside
a nested structure).  Constructors mirror the isinstance dispatch of
convert_value and is_scalar_na in scraper.py:

* `pynone`, `pybool`, `pyint`, `pyfloat`, `pystr` — plain Python scalars;
* `timestamp iso` — a pandas Timestamp whose isoformat() is `iso`
  (a genuine Timestamp is never NA: pandas NaT is not a Timestamp
  instance, it is covered by `scalarObj` with `isna` ok true);
* `npint`, `npfloat`, `npbool` — numpy scalar types;
* `nparray`, `pylist` — a numpy ndarray or a Python list/tuple;
* `pydict` — a Python dict with string keys;
* `scalarObj id isna iso asFloat` — any other scalar object, carrying its
  observable behaviour: `isna` is the outcome of the pandas scalar-NA
  probe (pd.api.types.is_scalar plus pd.isna), which may return a Boolean
  or raise — e.g. Decimal with a signalling NaN raises
  decimal.InvalidOperation, an ArithmeticError, from the comparison
  inside pd.isna; `iso` is the result of a callable isoformat attribute
  when the object has one (datetime.date, datetime.datetime, ...);
  `asFloat` is the float(obj) conversion when the object supports it
  (e.g. Decimal); `id` distinguishes otherwise equal objects. -/
inductive RVal where
  | pynone
  | pybool (b : Bool)
  | pyint (n : ℤ)
  | pyfloat (f : PyF)
  | pystr (s : String)
  | timestamp (iso : String)
  | npint (n : ℤ)
  | npfloat (f : PyF)
  | npbool (b : Bool)
  | nparray (xs : RValList)
  | pylist (xs : RValList)
  | pydict (kvs : RValKVs)
  | scalarObj (id : ℕ) (isna : Except PyExc Bool) (iso : Option String) (asFloat : Option PyF)
/-- List of raw values (spelled out so that all recursion below is
structural and kernel-reducible). -/
inductive RValList where
  | nil
  | cons (x : RVal) (xs : RValList)
/-- Key-value entries of a Python dict with string keys. -/
inductive RValKVs where
  | nil
  | cons (k : String) (v : RVal) (xs : RValKVs)
end

/-- A table row: one record of DataFrame.to_dict(orient=records), a
mapping from column name to value, in column order. -/
abbrev Row := List (String × RVal)

/-- dict.get(k): the stored value, or None when the key is missing. -/
def rowGet : Row → String → RVal
  | [], _ => .pynone
  | (k1, v) :: rest, k => if k1 = k then v else rowGet rest k

/-- Whether the dict carries the key at all (a stored None still counts
as present). -/
def rowHasKey : Row → String → Bool
  | [], _ => false
  | (k1, _) :: rest, k => if k1 = k then true else rowHasKey rest k

/-- dict assignment d[k] = v: overwrite in place, or append a new key. -/
def rowSet : Row → String → RVal → Row
  | [], k, v => [(k, v)]
  | (k1, v1) :: rest, k, v =>
    if k1 = k then (k, v) :: rest else (k1, v1) :: rowSet rest k v

/-- Test for the Python `is None` checks of the source. -/
def rvalIsNone : RVal → Bool
  | .pynone => true
  | _ => false

/-- Abstraction of the three float operations whose exact IEEE-754 results
are outside an exact embedding:

* `hav` — the value of the haversine body (scraper.py lines 22-31) on
  four finite arguments; the real-number formula is `haversineReal`
  below, `hav` stands for its evaluation in double precision;
* `round2` — the value of round(x, 2) on a finite float;
* `parse` — the value of float(s) on a string: some float (possibly NaN
  or an infinity, as for the strings nan and inf) or none when float()
  raises ValueError. -/
structure FloatOps where
  hav : ℚ → ℚ → ℚ → ℚ → ℚ
  round2 : ℚ → ℚ
  parse : String → Option PyF

/-- Python float(x) on a model value (scraper.py lines 49-50 and 227).
Numbers and numpy scalars convert; booleans give 0.0 or 1.0; strings go
through the abstracted parser and raise ValueError when unparsable; None,
Timestamps, arrays, lists and dicts raise TypeError; a foreign scalar
converts exactly when it implements the float protocol. -/
def pyFloatOf (F : FloatOps) : RVal → Except PyExc PyF
  | .pynone => .error .typeError
  | .pybool b => .ok (.finite (if b then 1 else 0))
  | .pyint n => .ok (.finite n)
  | .pyfloat f => .ok f
  | .pystr s =>
    match F.parse s with
    | some f => .ok f
    | none => .error .valueError
  | .timestamp _ => .error .typeError
  | .npint n => .ok (.finite n)
  | .npfloat f => .ok f
  | .npbool b => .ok (.finite (if b then 1 else 0))
  | .nparray _ => .error .typeError
  | .pylist _ => .error .typeError
  | .pydict _ => .error .typeError
  | .scalarObj _ _ _ af =>
    match af with
    | some f => .ok f
    | none => .error .typeError

/-- Reference transcription of math.atan2 on the reals (total, by sign
cases on the second argument, as the C library function behaves on finite
inputs). -/
noncomputable def atan2R (y x : ℝ) : ℝ :=
  if 0 < x then Real.arctan (y / x)
  else if x < 0 then
    (if 0 ≤ y then Real.arctan (y / x) + Real.pi else Real.arctan (y / x) - Real.pi)
  else
    (if 0 < y then Real.pi / 2 else if y < 0 then -(Real.pi / 2) else 0)

/-- Reference transcription of haversine_distance (scraper.py lines 11-31)
over the real numbers: R = 3959 miles, all four angles converted to
radians, a and c as in the source, result R * c.  The float evaluation of
this formula on finite arguments is what `FloatOps.hav` abstracts. -/
noncomputable def haversineReal (lat1 lon1 lat2 lon2 : ℝ) : ℝ :=
  let R : ℝ := 3959
  let l1 := lat1 * (Real.pi / 180)
  let m1 := lon1 * (Real.pi / 180)
  let l2 := lat2 * (Real.pi / 180)
  let m2 := lon2 * (Real.pi / 180)
  let dlat := l2 - l1
  let dlon := m2 - m1
  let a := Real.sin (dlat / 2) ^ 2 + Real.cos l1 * Real.cos l2 * Real.sin (dlon / 2) ^ 2
  let c := 2 * atan2R (Real.sqrt a) (Real.sqrt (1 - a))
  R * c

/-- The distance of a point to itself is zero under the reference
formula. -/
theorem haversineReal_self (lat lon : ℝ) : haversineReal lat lon lat lon = 0 := by
  simp only [haversineReal, sub_self, zero_div, Real.sin_zero, ne_eq,
    OfNat.ofNat_ne_zero, not_false_eq_true, zero_pow, mul_zero, add_zero,
    zero_add, Real.sqrt_zero, sub_zero, Real.sqrt_one, atan2R]
  rw [if_pos (by norm_num : (0 : ℝ) < 1)]
  norm_num [Real.arctan_zero]

/-- haversine_distance on model floats (scraper.py lines 11-31 as called
from line 225 with possibly non-finite arguments).  math.sin and math.cos
raise ValueError on an infinite argument, so the call raises exactly when
an infinity reaches a trigonometric argument: when a latitude is infinite
(cos of it is taken directly) or when the longitude difference is
infinite.  Otherwise any NaN among the inputs (including the NaN arising
as inf - inf of two same-signed infinite longitudes) propagates to a NaN
result, and on four finite arguments the result is the finite float value
of the formula, abstracted by `F.hav`.  The result of the formula on
finite arguments is finite: c lies in [0, pi], so R * c is bounded. -/
def haversine_distance (F : FloatOps) (lat1 lon1 lat2 lon2 : PyF) : Except PyExc PyF :=
  if lat1.isInf || lat2.isInf || PyF.subIsInf lon2 lon1 then .error .valueError
  else
    match lat1, lon1, lat2, lon2 with
    | .finite a, .finite b, .finite c, .finite d => .ok (.finite (F.hav a b c d))
    | _, _, _, _ => .ok .nan

/-- is_scalar_na body, scraper.py lines 61-70, before the except clause:
None is NA; lists, tuples, ndarrays and dicts are never NA; a float
(plain or numpy — numpy.float64 is a float subclass, numpy.float32 is
caught one line later by the pandas scalar probe, with the same outcome)
is NA exactly when it is NaN; a genuine Timestamp is never NA; ints,
bools and strings are pandas scalars that are never NA; for any other
scalar object the outcome is the recorded behaviour of the pandas probe,
which may raise. -/
def is_scalar_na_checks : RVal → Except PyExc Bool
  | .pynone => .ok true
  | .pylist _ => .ok false
  | .nparray _ => .ok false
  | .pydict _ => .ok false
  | .pyfloat f => .ok f.isNan
  | .npfloat f => .ok f.isNan
  | .timestamp _ => .ok false
  | .pybool _ => .ok false
  | .pyint _ => .ok false
  | .npint _ => .ok false
  | .npbool _ => .ok false
  | .pystr _ => .ok false
  | .scalarObj _ isna _ _ => isna

/-- is_scalar_na, scraper.py lines 58-73: the body above wrapped in
try/except (ValueError, TypeError) returning False — note that only these
two exception classes are caught; any other exception kind escapes. -/
def is_scalar_na (v : RVal) : Except PyExc Bool :=
  match is_scalar_na_checks v with
  | .error .valueError => .ok false
  | .error .typeError => .ok false
  | r => r

/-- Shared shape of convert_value, scraper.py lines 78-82: propagate an
escaping exception of the NA probe, map a detected NA to None, otherwise
continue with the type dispatch. -/
def naGate (na : Except PyExc Bool) (k : Except PyExc RVal) : Except PyExc RVal :=
  match na with
  | .error e => .error e
  | .ok true => .ok .pynone
  | .ok false => k

mutual
/-- convert_value, scraper.py lines 76-104.  Per constructor: None stays
None; a detected scalar NA becomes None; a Timestamp or any object with a
callable isoformat becomes its ISO string; numpy ints, floats and bools
unwrap to native values, with a defensive NaN-to-None double check on
numpy floats; ndarrays (via tolist(), whose native unwrapping composes
with the element-wise conversion to the same result), lists and tuples
convert element-wise to a list; dicts convert per key; anything else is
returned unchanged (line 104).  The NA probe runs before the dispatch for
every non-None value, as in the source; it is written per constructor
here so that the recursion stays structural. -/
def convert_value : RVal → Except PyExc RVal
  | .pynone => .ok .pynone
  | .pybool b => naGate (is_scalar_na (.pybool b)) (.ok (.pybool b))
  | .pyint n => naGate (is_scalar_na (.pyint n)) (.ok (.pyint n))
  | .pyfloat f => naGate (is_scalar_na (.pyfloat f)) (.ok (.pyfloat f))
  | .pystr s => naGate (is_scalar_na (.pystr s)) (.ok (.pystr s))
  | .timestamp iso => naGate (is_scalar_na (.timestamp iso)) (.ok (.pystr iso))
  | .npint n => naGate (is_scalar_na (.npint n)) (.ok (.pyint n))
  | .npfloat f => naGate (is_scalar_na (.npfloat f))
      (if f.isNan then .ok .pynone else .ok (.pyfloat f))
  | .npbool b => naGate (is_scalar_na (.npbool b)) (.ok (.pybool b))
  | .nparray xs => naGate (is_scalar_na (.nparray xs)) ((convert_rlist xs).map .pylist)
  | .pylist xs => naGate (is_scalar_na (.pylist xs)) ((convert_rlist xs).map .pylist)
  | .pydict kvs => naGate (is_scalar_na (.pydict kvs)) ((convert_rkvs kvs).map .pydict)
  | .scalarObj i isna iso af => naGate (is_scalar_na (.scalarObj i isna iso af))
      (match iso with
       | some s => .ok (.pystr s)
       | none => .ok (.scalarObj i isna none af))
/-- Element-wise conversion of a list, stopping at the first escaping
exception, as a Python list comprehension does. -/
def convert_rlist : RValList → Except PyExc RValList
  | .nil => .ok .nil
  | .cons x xs =>
    match convert_value x with
    | .error e => .error e
    | .ok y =>
      match convert_rlist xs with
      | .error e => .error e
      | .ok ys => .ok (.cons y ys)
/-- Per-key conversion of a dict, preserving keys and order. -/
def convert_rkvs : RValKVs → Except PyExc RValKVs
  | .nil => .ok .nil
  | .cons k x xs =>
    match convert_value x with
    | .error e => .error e
    | .ok y =>
      match convert_rkvs xs with
      | .error e => .error e
      | .ok ys => .ok (.cons k y ys)
end

/-- The dict comprehension of scraper.py line 217: convert_value applied
to every value of the record, keys and order preserved, first escaping
exception aborts. -/
def convert_row : Row → Except PyExc Row
  | [] => .ok []
  | (k, v) :: rest =>
    match convert_value v with
    | .error e => .error e
    | .ok y =>
      match convert_row rest with
      | .error e => .error e
      | .ok ys => .ok ((k, y) :: ys)

/-- Body of the center-selection loop, scraper.py lines 44-54, for one
row: both coordinates present (not None), float() succeeds on both (the
except clause catches the ValueError/TypeError that float can raise), and
neither converted value is NaN.  An infinite converted value passes the
NaN check and is accepted. -/
def rowCenterCand (F : FloatOps) (prop : Row) : Option (PyF × PyF) :=
  let lat := rowGet prop "latitude"
  let lng := rowGet prop "longitude"
  if rvalIsNone lat || rvalIsNone lng then none
  else
    match pyFloatOf F lat, pyFloatOf F lng with
    | .ok lf, .ok gf => if lf.isNan || gf.isNan then none else some (lf, gf)
    | _, _ => none

/-- get_center_coordinates, scraper.py lines 34-55: first row whose
candidate check succeeds, scanning in order; None when no row
qualifies. -/
def get_center_coordinates (F : FloatOps) : List Row → Option (PyF × PyF)
  | [] => none
  | prop :: rest =>
    match rowCenterCand F prop with
    | some c => some c
    | none => get_center_coordinates F rest

/-- round(d, 2) as stored into the row: a finite float is rounded by the
abstracted round2, NaN and infinities pass through round unchanged. -/
def py_round2 (F : FloatOps) : PyF → RVal
  | .finite q => .pyfloat (.finite (F.round2 q))
  | f => .pyfloat f

/-- Distance attachment for one cleaned row, scraper.py lines 219-231,
given that a center exists.  When both cleaned coordinates are present
(not None) the code converts them with float() and calls
haversine_distance inside try; on success the rounded distance is stored
under distance_miles, and on ValueError/TypeError the key is set to None
(not left absent).  The try body only raises ValueError or TypeError
(float() and the math domain error of sin/cos on infinities), so the
catch-all branch here coincides with the except clause of line 230. -/
def attach_distance (F : FloatOps) (c : PyF × PyF) (cleaned : Row) : Row :=
  let prop_lat := rowGet cleaned "latitude"
  let prop_lng := rowGet cleaned "longitude"
  if rvalIsNone prop_lat || rvalIsNone prop_lng then cleaned
  else
    match (pyFloatOf F prop_lat).bind fun lf =>
          (pyFloatOf F prop_lng).bind fun gf =>
          haversine_distance F c.1 c.2 lf gf with
    | .ok d => rowSet cleaned "distance_miles" (py_round2 F d)
    | .error _ => rowSet cleaned "distance_miles" .pynone

/-- Annotation type of a declared Property field in
app/schemas/property.py (all fields are Optional with default None). -/
inductive FType where
  | fstr
  | fint
  | ffloat
  | fbool
  | fany
deriving DecidableEq

/-- First block of the declared fields of the pydantic Property model,
app/schemas/property.py lines 117-210 (the table is split into four
blocks only to keep elaboration cheap). -/
def fieldsA : List (String × FType) :=
  [("property_url", .fstr), ("property_id", .fstr), ("listing_id", .fstr),
   ("mls", .fstr), ("mls_id", .fstr), ("mls_status", .fstr),
   ("status", .fstr), ("permalink", .fstr),
   ("street", .fstr), ("unit", .fstr), ("city", .fstr), ("state", .fstr),
   ("zip_code", .fstr),
   ("style", .fstr), ("beds", .fint), ("full_baths", .fint),
   ("half_baths", .fint), ("sqft", .fint), ("year_built", .fint),
   ("stories", .fint)]

/-- Second block of the declared Property fields. -/
def fieldsB : List (String × FType) :=
  [("garage", .fint), ("lot_sqft", .fint),
   ("text", .fstr), ("type", .fstr),
   ("days_on_mls", .fint), ("list_price", .fint), ("list_price_min", .fint),
   ("list_price_max", .fint), ("list_date", .fstr), ("pending_date", .fstr),
   ("sold_price", .fint), ("last_sold_date", .fstr),
   ("last_status_change_date", .fstr), ("last_update_date", .fstr),
   ("last_sold_price", .fint), ("price_per_sqft", .ffloat),
   ("new_construction", .fbool), ("hoa_fee", .fint),
   ("monthly_fees", .fany), ("one_time_fees", .fany)]

/-- Third block of the declared Property fields. -/
def fieldsC : List (String × FType) :=
  [("estimated_value", .fint),
   ("tax_assessed_value", .fint), ("tax_history", .fany),
   ("latitude", .ffloat), ("longitude", .ffloat),
   ("neighborhoods", .fstr), ("county", .fstr), ("fips_code", .fstr),
   ("parcel_number", .fstr), ("nearby_schools", .fany),
   ("agent_uuid", .fstr), ("agent_name", .fstr), ("agent_email", .fstr),
   ("agent_phone", .fstr), ("agent_state_license", .fstr),
   ("broker_uuid", .fstr), ("broker_name", .fstr),
   ("office_uuid", .fstr), ("office_name", .fstr), ("office_email", .fstr)]

/-- Fourth block of the declared Property fields. -/
def fieldsD : List (String × FType) :=
  [("office_phones", .fany),
   ("estimated_monthly_rental", .fint), ("tags", .fany), ("flags", .fany),
   ("photos", .fany), ("primary_photo", .fstr), ("alt_photos", .fany),
   ("open_houses", .fany), ("units", .fany), ("pet_policy", .fany),
   ("parking", .fany), ("parking_garage", .fint), ("terms", .fany),
   ("current_estimates", .fany), ("estimates", .fany)]

/-- The declared fields of the pydantic Property model,
app/schemas/property.py lines 117-210, with their annotations.  Note that
distance_miles is not among them. -/
def fieldsTable : List (String × FType) :=
  fieldsA ++ fieldsB ++ fieldsC ++ fieldsD

/-- Pydantic v2 validation of one field value, simplified to the identity
on values already of the annotated type: None always validates (all
fields are Optional), an Any field accepts everything, a str field
accepts exactly strings, an int field accepts ints and integral finite
floats (widened), a float field accepts floats and ints (widened), a bool
field accepts bools and 0/1 ints.  The lax acceptance of numeric strings
by pydantic is deliberately not modelled; no theorem below exercises
it. -/
def coerceField : FType → RVal → Option RVal
  | _, .pynone => some .pynone
  | .fany, v => some v
  | .fstr, .pystr s => some (.pystr s)
  | .fstr, _ => none
  | .fint, .pyint n => some (.pyint n)
  | .fint, .pyfloat (.finite q) => if q.den = 1 then some (.pyint q.num) else none
  | .fint, _ => none
  | .ffloat, .pyfloat f => some (.pyfloat f)
  | .ffloat, .pyint n => some (.pyfloat (.finite (n : ℚ)))
  | .ffloat, _ => none
  | .fbool, .pybool b => some (.pybool b)
  | .fbool, .pyint n =>
    if n = 0 then some (.pybool false)
    else if n = 1 then some (.pybool true) else none
  | .fbool, _ => none

/-- Keyword processing of Property(**cleaned): a key that is not a
declared field is silently dropped (pydantic v2 default extra equals
ignore), a declared key is validated and coerced, and any validation
failure raises ValidationError, aborting the construction. -/
def coerce_fields : Row → Except PyExc Row
  | [] => .ok []
  | (k, v) :: rest =>
    match List.lookup k fieldsTable with
    | none => coerce_fields rest
    | some t =>
      match coerceField t v with
      | none => .error .validationError
      | some w =>
        match coerce_fields rest with
        | .error e => .error e
        | .ok ws => .ok ((k, w) :: ws)

/-- Property(**cleaned), scraper.py line 233, modelled through the field
table of the pydantic class.  The resulting object is represented by its
validated declared fields; declared fields that were not passed default
to None, which `rowGet` already yields for a missing key. -/
def Property_construct (cleaned : Row) : Except PyExc Row :=
  coerce_fields cleaned

/-- Attribute access p.f on a Property instance: a declared field reads
its stored value (None when never set); an undeclared attribute — in
particular distance_miles — raises AttributeError under the pydantic v2
default configuration. -/
def pyGetAttr (p : Row) (k : String) : Except PyExc RVal :=
  match List.lookup k fieldsTable with
  | some _ => .ok (rowGet p k)
  | none => .error .attributeError

/-- Processing of one record inside the loop of scraper.py lines 215-233:
convert every value, attach the distance when a center exists, construct
the Property. -/
def clean_record (F : FloatOps) (center : Option (PyF × PyF)) (record : Row) :
    Except PyExc Row :=
  match convert_row record with
  | .error e => .error e
  | .ok cleaned =>
    match center with
    | some c => Property_construct (attach_distance F c cleaned)
    | none => Property_construct cleaned

/-- The accumulation loop of scraper.py lines 214-233: process the records
in order; the first escaping exception aborts the batch. -/
def build_properties (F : FloatOps) (center : Option (PyF × PyF)) :
    List Row → Except PyExc (List Row)
  | [] => .ok []
  | record :: rest =>
    match clean_record F center record with
    | .error e => .error e
    | .ok p =>
      match build_properties F center rest with
      | .error e => .error e
      | .ok ps => .ok (p :: ps)

/-- Python comparison value <= radius for the filter of line 239. -/
def rvalLeQ : RVal → ℚ → Bool
  | .pyfloat f, r => f.leQ r
  | .pyint n, r => decide ((n : ℚ) ≤ r)
  | _, _ => false

/-- The filter predicate of scraper.py lines 238-239:
p.distance_miles is not None and p.distance_miles <= radius, reading the
attribute twice as the source does; each read can raise. -/
def keeps_row (p : Row) (radius : ℚ) : Except PyExc Bool :=
  match pyGetAttr p "distance_miles" with
  | .error e => .error e
  | .ok d =>
    if rvalIsNone d then .ok false
    else
      match pyGetAttr p "distance_miles" with
      | .error e => .error e
      | .ok d2 => .ok (rvalLeQ d2 radius)

/-- The list comprehension of scraper.py lines 237-240, evaluated left to
right with the first escaping exception aborting. -/
def radius_filter (radius : ℚ) : List Row → Except PyExc (List Row)
  | [] => .ok []
  | p :: ps =>
    match keeps_row p radius with
    | .error e => .error e
    | .ok b =>
      match radius_filter radius ps with
      | .error e => .error e
      | .ok rest => .ok (if b then p :: rest else rest)

/-- The sort key of scraper.py line 244:
p.distance_miles if p.distance_miles is not None else float inf; reading
the attribute can raise.  The stored distance is always a float (or the
key is absent), so the fall-through cases are unreachable. -/
def sort_key (p : Row) : Except PyExc PyF :=
  match pyGetAttr p "distance_miles" with
  | .error e => .error e
  | .ok d =>
    match d with
    | .pynone => .ok (.inf false)
    | .pyfloat f => .ok f
    | .pyint n => .ok (.finite (n : ℚ))
    | _ => .ok (.inf false)

/-- Key computation pass of list.sort(key=...): CPython evaluates the key
of every element, in list order, before comparing; the first escaping
exception aborts with the list unchanged. -/
def sort_keys : List Row → Except PyExc (List (PyF × Row))
  | [] => .ok []
  | p :: ps =>
    match sort_key p with
    | .error e => .error e
    | .ok k =>
      match sort_keys ps with
      | .error e => .error e
      | .ok ks => .ok ((k, p) :: ks)

/-- Stable insertion: x goes before the first element whose key is not
strictly below the key of x, so earlier-arriving elements with equal keys
stay in front. -/
def insertByKey (x : PyF × Row) : List (PyF × Row) → List (PyF × Row)
  | [] => [x]
  | y :: ys => if PyF.lt y.1 x.1 then y :: insertByKey x ys else x :: y :: ys

/-- Stable ascending sort by key (list.sort is stable; insertion sort is
a stable model of it). -/
def sortPairs : List (PyF × Row) → List (PyF × Row)
  | [] => []
  | x :: xs => insertByKey x (sortPairs xs)

/-- properties.sort(key=...), scraper.py lines 243-244. -/
def sort_by_distance (props : List Row) : Except PyExc (List Row) :=
  match sort_keys props with
  | .error e => .error e
  | .ok ks => .ok ((sortPairs ks).map (fun kp => kp.2))

/-- The post-scrape body of search_properties, scraper.py lines 204-246:
empty frame short-circuits to the empty list; otherwise the center is
selected from the raw records, every record is converted, annotated and
turned into a Property, the radius filter runs only when both a radius
and a center exist, and the sort runs whenever a radius was supplied. -/
def search_properties_run (F : FloatOps) (records : List Row) (radius : Option ℚ) :
    Except PyExc (List Row) :=
  if records.isEmpty then .ok []
  else
    let center := get_center_coordinates F records
    match build_properties F center records with
    | .error e => .error e
    | .ok props =>
      let filtered :=
        match radius, center with
        | some r, some _ => radius_filter r props
        | _, _ => .ok props
      match filtered with
      | .error e => .error e
      | .ok props2 =>
        match radius with
        | some _ => sort_by_distance props2
        | none => .ok props2

/-- The single error surfaced by search_properties, scraper.py lines
107-109 and 248-249: every exception of the try block is wrapped into a
ScraperError that carries the original exception as its cause
(raise ... from e). -/
inductive ScraperError where
  | wrap (cause : PyExc)
deriving DecidableEq

/-- search_properties, scraper.py lines 112-249, observed after the
external scrape call: the scrape outcome (a table of raw records, or the
exception the provider raised) enters the try block, and any exception —
from the scrape or from the post-processing — is wrapped into one
ScraperError.  The keyword assembly of lines 151-198 only forwards the
request parameters to the external provider and is not modelled. -/
def search_properties (F : FloatOps) (scraped : Except PyExc (List Row))
    (radius : Option ℚ) : Except ScraperError (List Row) :=
  match scraped with
  | .error e => .error (.wrap e)
  | .ok records =>
    match search_properties_run F records radius with
    | .error e => .error (.wrap e)
    | .ok out => .ok out

/-- Boolean success test on a pipeline outcome. -/
def isOkResult : Except PyExc (List Row) → Bool
  | .ok _ => true
  | .error _ => false

mutual
/-- The JSON-safe value shapes of the specification: absent, bool, int,
non-NaN float, text, sequence or mapping of such. -/
def jsonSafeV : RVal → Bool
  | .pynone => true
  | .pybool _ => true
  | .pyint _ => true
  | .pyfloat f => !f.isNan
  | .pystr _ => true
  | .pylist xs => jsonSafeL xs
  | .pydict kvs => jsonSafeK kvs
  | _ => false
/-- JSON safety of every element of a list. -/
def jsonSafeL : RValList → Bool
  | .nil => true
  | .cons x xs => jsonSafeV x && jsonSafeL xs
/-- JSON safety of every value of a dict. -/
def jsonSafeK : RValKVs → Bool
  | .nil => true
  | .cons _ v xs => jsonSafeV v && jsonSafeK xs
end

mutual
/-- The shapes that actually occur in convert_value output: the JSON-safe
shapes, plus a foreign scalar passed through unchanged by the final
fall-through of line 104 — one that is not NA under the probe (or whose
probe failure was a caught ValueError/TypeError) and has no isoformat.
No NaN float and no NA sentinel occurs. -/
def normalShapeV : RVal → Bool
  | .pynone => true
  | .pybool _ => true
  | .pyint _ => true
  | .pyfloat f => !f.isNan
  | .pystr _ => true
  | .pylist xs => normalShapeL xs
  | .pydict kvs => normalShapeK kvs
  | .scalarObj _ isna iso _ =>
    (match isna with
     | .ok false => true
     | .error .valueError => true
     | .error .typeError => true
     | _ => false) && iso.isNone
  | _ => false
/-- Output shape of every element of a list. -/
def normalShapeL : RValList → Bool
  | .nil => true
  | .cons x xs => normalShapeV x && normalShapeL xs
/-- Output shape of every value of a dict. -/
def normalShapeK : RValKVs → Bool
  | .nil => true
  | .cons _ v xs => normalShapeV v && normalShapeK xs
end

/-- Whether the value is a composite (sequence, mapping or array) in the
sense of line 63 of scraper.py. -/
def isComposite : RVal → Bool
  | .pylist _ => true
  | .nparray _ => true
  | .pydict _ => true
  | _ => false

/-- Degenerate float-operation instance used to state closed
counterexamples and witnesses whose truth does not depend on the numeric
values: the haversine value is 0, rounding is the identity, no string
parses. -/
def floatOps0 : FloatOps :=
  { hav := fun _ _ _ _ => 0, round2 := fun q => q, parse := fun _ => none }

/-- Float-operation instance recording that Python float() maps the
string inf to positive infinity (everything else unparsed); used for the
infinite-center counterexample. -/
def floatOpsInf : FloatOps :=
  { hav := fun _ _ _ _ => 0, round2 := fun q => q,
    parse := fun s => if s = "inf" then some (.inf false) else none }

/-! Supporting lemmas. -/

/-- distance_miles is not a declared Property field. -/
theorem lookup_distance_none : List.lookup "distance_miles" fieldsTable = none := rfl

/-- Reading distance_miles from any Property instance raises
AttributeError. -/
theorem pyGetAttr_distance (p : Row) :
    pyGetAttr p "distance_miles" = .error .attributeError := rfl

/-- The radius filter raises on its first element. -/
theorem radius_filter_cons (r : ℚ) (p : Row) (ps : List Row) :
    radius_filter r (p :: ps) = .error .attributeError := rfl

/-- The distance sort raises on its first element. -/
theorem sort_by_distance_cons (p : Row) (ps : List Row) :
    sort_by_distance (p :: ps) = .error .attributeError := rfl

/-- Every successful Property construction is free of the distance_miles
key, because the key is not declared and extra keys are dropped. -/
theorem coerce_fields_no_distance :
    ∀ cleaned out, coerce_fields cleaned = .ok out →
      rowHasKey out "distance_miles" = false := by
  intro cleaned
  induction cleaned with
  | nil => intro out h; cases h; rfl
  | cons kv rest ih =>
    intro out h
    obtain ⟨k, v⟩ := kv
    simp only [coerce_fields] at h
    split at h
    · exact ih out h
    · rename_i t heq
      split at h
      · cases h
      · rename_i w hcf
        split at h
        · cases h
        · rename_i ws hr
          cases h
          have hk : k ≠ "distance_miles" := by
            intro hkk
            rw [hkk, lookup_distance_none] at heq
            cases heq
          simp [rowHasKey, hk, ih ws hr]

/-- Every row a successful record-processing step emits lacks the
distance_miles key. -/
theorem clean_record_no_distance (F : FloatOps) (c : Option (PyF × PyF))
    (rec : Row) (p : Row) (h : clean_record F c rec = .ok p) :
    rowHasKey p "distance_miles" = false := by
  simp only [clean_record] at h
  cases hc : convert_row rec with
  | error e => rw [hc] at h; cases h
  | ok cleaned =>
    rw [hc] at h
    cases c with
    | some cc => exact coerce_fields_no_distance _ p h
    | none => exact coerce_fields_no_distance _ p h

/-- The record loop preserves the number of rows. -/
theorem build_properties_length (F : FloatOps) (c : Option (PyF × PyF)) :
    ∀ rows out, build_properties F c rows = .ok out → out.length = rows.length := by
  intro rows
  induction rows with
  | nil => intro out h; cases h; rfl
  | cons rec rest ih =>
    intro out h
    simp only [build_properties] at h
    cases hc : clean_record F c rec with
    | error e => rw [hc] at h; cases h
    | ok p =>
      rw [hc] at h
      cases hb : build_properties F c rest with
      | error e => rw [hb] at h; cases h
      | ok ps => rw [hb] at h; cases h; simp [ih ps hb]

/-- The record loop maps the i-th input row to the i-th output row. -/
theorem build_properties_get (F : FloatOps) (c : Option (PyF × PyF)) :
    ∀ rows out, build_properties F c rows = .ok out →
      ∀ i, (hi : i < out.length) → (hr : i < rows.length) →
        clean_record F c (rows.get ⟨i, hr⟩) = .ok (out.get ⟨i, hi⟩) := by
  intro rows
  induction rows with
  | nil => intro out h i hi hr; exact absurd hr (by simp)
  | cons rec rest ih =>
    intro out h i hi hr
    simp only [build_properties] at h
    cases hc : clean_record F c rec with
    | error e => rw [hc] at h; cases h
    | ok p =>
      rw [hc] at h
      cases hb : build_properties F c rest with
      | error e => rw [hb] at h; cases h
      | ok ps =>
        rw [hb] at h; cases h
        cases i with
        | zero => simpa using hc
        | succ j => exact ih ps hb j (by simpa using hi) (by simpa using hr)

/-- Every output row of the record loop comes from some input row. -/
theorem build_properties_mem (F : FloatOps) (c : Option (PyF × PyF)) :
    ∀ rows out, build_properties F c rows = .ok out →
      ∀ p ∈ out, ∃ rec ∈ rows, clean_record F c rec = .ok p := by
  intro rows
  induction rows with
  | nil => intro out h p hp; cases h; simp at hp
  | cons rec rest ih =>
    intro out h p hp
    simp only [build_properties] at h
    cases hc : clean_record F c rec with
    | error e => rw [hc] at h; cases h
    | ok p0 =>
      rw [hc] at h
      cases hb : build_properties F c rest with
      | error e => rw [hb] at h; cases h
      | ok ps =>
        rw [hb] at h; cases h
        rcases List.mem_cons.1 hp with h1 | h2
        · exact ⟨rec, by simp, by rw [h1]; exact hc⟩
        · obtain ⟨r0, hr0, hcr⟩ := ih ps hb p h2
          exact ⟨r0, by simp [hr0], hcr⟩

/-- Without a radius the pipeline is exactly the record loop (after the
empty-frame short-circuit). -/
theorem run_none_eq (F : FloatOps) (rows : List Row) :
    search_properties_run F rows none
      = if rows.isEmpty then .ok []
        else build_properties F (get_center_coordinates F rows) rows := by
  cases he : rows.isEmpty with
  | true => simp [search_properties_run, he]
  | false =>
    simp only [search_properties_run, he, Bool.false_eq_true, if_false]
    cases hb : build_properties F (get_center_coordinates F rows) rows <;> simp

/-- With a radius and at least one record the pipeline always fails: the
radius filter (when a center exists) or the sort key (otherwise) reads
the undeclared distance_miles attribute of the first Property. -/
theorem run_some_not_ok (F : FloatOps) (rows : List Row) (r : ℚ)
    (h : rows ≠ []) :
    isOkResult (search_properties_run F rows (some r)) = false := by
  have hne : rows.isEmpty = false := by
    cases rows with
    | nil => exact absurd rfl h
    | cons a as => rfl
  simp only [search_properties_run, hne, Bool.false_eq_true, if_false]
  cases hb : build_properties F (get_center_coordinates F rows) rows with
  | error e => rfl
  | ok props =>
    have hlen := build_properties_length F _ rows props hb
    have hpne : props ≠ [] := by
      intro hp
      rw [hp] at hlen
      cases rows with
      | nil => exact h rfl
      | cons a as => simp at hlen
    obtain ⟨p, ps, rfl⟩ := List.exists_cons_of_ne_nil hpne
    cases hc : get_center_coordinates F rows with
    | some c => simp [radius_filter_cons, isOkResult]
    | none => simp [sort_by_distance_cons, isOkResult]

/-- First-hit characterization of center selection: a center c is found
exactly when the rows split into an initial segment with no valid
coordinates followed by a row whose candidate check yields c. -/
theorem get_center_some_iff (F : FloatOps) :
    ∀ (rows : List Row) (c : PyF × PyF),
      get_center_coordinates F rows = some c ↔
        ∃ pre r suf, rows = pre ++ r :: suf ∧
          (∀ p ∈ pre, rowCenterCand F p = none) ∧ rowCenterCand F r = some c := by
  intro rows
  induction rows with
  | nil =>
    intro c
    constructor
    · intro h; simp [get_center_coordinates] at h
    · rintro ⟨pre, r, suf, hrows, -, -⟩
      exact absurd hrows (by simp)
  | cons q rest ih =>
    intro c
    simp only [get_center_coordinates]
    cases hq : rowCenterCand F q with
    | some c0 =>
      constructor
      · intro h
        cases h
        exact ⟨[], q, rest, rfl, by simp, hq⟩
      · rintro ⟨pre, r, suf, hrows, hpre, hr⟩
        cases pre with
        | nil =>
          simp only [List.nil_append, List.cons.injEq] at hrows
          obtain ⟨h1, h2⟩ := hrows
          subst h1
          rw [hq] at hr
          exact hr
        | cons p0 pre2 =>
          simp only [List.cons_append, List.cons.injEq] at hrows
          obtain ⟨h1, h2⟩ := hrows
          subst h1
          have hx := hpre q (by simp)
          rw [hq] at hx
          cases hx
    | none =>
      constructor
      · intro h
        obtain ⟨pre, r, suf, hrows, hpre, hr⟩ := (ih c).1 h
        refine ⟨q :: pre, r, suf, by simp [hrows], ?_, hr⟩
        intro p hp
        rcases List.mem_cons.1 hp with h1 | h2
        · rw [h1]; exact hq
        · exact hpre p h2
      · rintro ⟨pre, r, suf, hrows, hpre, hr⟩
        cases pre with
        | nil =>
          simp only [List.nil_append, List.cons.injEq] at hrows
          obtain ⟨h1, h2⟩ := hrows
          subst h1
          rw [hq] at hr
          cases hr
        | cons p0 pre2 =>
          simp only [List.cons_append, List.cons.injEq] at hrows
          obtain ⟨h1, h2⟩ := hrows
          subst h1
          exact (ih c).2 ⟨pre2, r, suf, h2, fun p hp => hpre p (by simp [hp]), hr⟩

/-- No center is selected exactly when no row passes the candidate
check. -/
theorem get_center_none_iff (F : FloatOps) :
    ∀ rows : List Row, get_center_coordinates F rows = none ↔
      ∀ p ∈ rows, rowCenterCand F p = none := by
  intro rows
  induction rows with
  | nil => simp [get_center_coordinates]
  | cons q rest ih =>
    simp only [get_center_coordinates]
    cases hq : rowCenterCand F q with
    | some c0 =>
      constructor
      · intro h; cases h
      · intro h
        have hx := h q (by simp)
        rw [hq] at hx
        cases hx
    | none =>
      constructor
      · intro h p hp
        rcases List.mem_cons.1 hp with h1 | h2
        · rw [h1]; exact hq
        · exact ih.1 h p h2
      · intro h
        exact ih.2 fun p hp => h p (by simp [hp])

mutual
/-- Every value a successful conversion returns is of the normalized
shape (JSON-safe or a passed-through non-NA foreign scalar), with no NaN
and no NA sentinel anywhere. -/
theorem normalShape_of_convert_value (v : RVal) :
    ∀ out, convert_value v = .ok out → normalShapeV out = true := by
  cases v with
  | pynone => intro out h; cases h; rfl
  | pybool b => intro out h; cases h; rfl
  | pyint n => intro out h; cases h; rfl
  | pyfloat f => cases f <;> (intro out h; cases h; rfl)
  | pystr s => intro out h; cases h; rfl
  | timestamp iso => intro out h; cases h; rfl
  | npint n => intro out h; cases h; rfl
  | npfloat f => cases f <;> (intro out h; cases h; rfl)
  | npbool b => intro out h; cases h; rfl
  | nparray xs =>
    intro out h
    simp only [convert_value, is_scalar_na, is_scalar_na_checks, naGate] at h
    cases hx : convert_rlist xs with
    | error e => rw [hx] at h; cases h
    | ok ys =>
      rw [hx] at h
      cases h
      exact normalShape_of_convert_rlist xs ys hx
  | pylist xs =>
    intro out h
    simp only [convert_value, is_scalar_na, is_scalar_na_checks, naGate] at h
    cases hx : convert_rlist xs with
    | error e => rw [hx] at h; cases h
    | ok ys =>
      rw [hx] at h
      cases h
      exact normalShape_of_convert_rlist xs ys hx
  | pydict kvs =>
    intro out h
    simp only [convert_value, is_scalar_na, is_scalar_na_checks, naGate] at h
    cases hx : convert_rkvs kvs with
    | error e => rw [hx] at h; cases h
    | ok ys =>
      rw [hx] at h
      cases h
      exact normalShape_of_convert_rkvs kvs ys hx
  | scalarObj i isna iso af =>
    intro out h
    cases isna with
    | ok b =>
      cases b with
      | true => cases h; rfl
      | false =>
        cases iso with
        | some s => cases h; rfl
        | none => cases h; rfl
    | error e =>
      cases e with
      | valueError =>
        cases iso with
        | some s => cases h; rfl
        | none => cases h; rfl
      | typeError =>
        cases iso with
        | some s => cases h; rfl
        | none => cases h; rfl
      | attributeError => cases h
      | validationError => cases h
      | otherError => cases h
/-- List version of the output-shape invariant. -/
theorem normalShape_of_convert_rlist (xs : RValList) :
    ∀ ys, convert_rlist xs = .ok ys → normalShapeL ys = true := by
  cases xs with
  | nil => intro ys h; cases h; rfl
  | cons x xs2 =>
    intro ys h
    simp only [convert_rlist] at h
    cases hx : convert_value x with
    | error e => rw [hx] at h; cases h
    | ok y =>
      rw [hx] at h
      cases hxs : convert_rlist xs2 with
      | error e => rw [hxs] at h; cases h
      | ok ys2 =>
        rw [hxs] at h; cases h
        simp [normalShapeL, normalShape_of_convert_value x y hx,
          normalShape_of_convert_rlist xs2 ys2 hxs]
/-- Dict version of the output-shape invariant. -/
theorem normalShape_of_convert_rkvs (kvs : RValKVs) :
    ∀ ys, convert_rkvs kvs = .ok ys → normalShapeK ys = true := by
  cases kvs with
  | nil => intro ys h; cases h; rfl
  | cons k x xs2 =>
    intro ys h
    simp only [convert_rkvs] at h
    cases hx : convert_value x with
    | error e => rw [hx] at h; cases h
    | ok y =>
      rw [hx] at h
      cases hxs : convert_rkvs xs2 with
      | error e => rw [hxs] at h; cases h
      | ok ys2 =>
        rw [hxs] at h; cases h
        simp [normalShapeK, normalShape_of_convert_value x y hx,
          normalShape_of_convert_rkvs xs2 ys2 hxs]
end

/-- Row-level form of the output-shape invariant. -/
theorem convert_row_shape :
    ∀ record out, convert_row record = .ok out →
      ∀ kv ∈ out, normalShapeV kv.2 = true := by
  intro record
  induction record with
  | nil => intro out h kv hkv; cases h; simp at hkv
  | cons kv0 rest ih =>
    intro out h kv hkv
    obtain ⟨k, v⟩ := kv0
    simp only [convert_row] at h
    cases hv : convert_value v with
    | error e => rw [hv] at h; cases h
    | ok y =>
      rw [hv] at h
      cases hr : convert_row rest with
      | error e => rw [hr] at h; cases h
      | ok ys =>
        rw [hr] at h; cases h
        rcases List.mem_cons.1 hkv with h1 | h2
        · rw [h1]; exact normalShape_of_convert_value v y hv
        · exact ih ys hr kv h2

mutual
/-- Idempotence of value conversion, in bind form so that an escaping
exception on the first pass is covered as well. -/
theorem convert_value_idem (v : RVal) :
    (convert_value v).bind convert_value = convert_value v := by
  cases v with
  | pynone => rfl
  | pybool b => rfl
  | pyint n => rfl
  | pyfloat f => cases f <;> rfl
  | pystr s => rfl
  | timestamp iso => rfl
  | npint n => rfl
  | npfloat f => cases f <;> rfl
  | npbool b => rfl
  | nparray xs =>
    have h := convert_rlist_idem xs
    simp only [convert_value, is_scalar_na, is_scalar_na_checks, naGate]
    cases hx : convert_rlist xs with
    | error e => simp [Except.map, Except.bind, hx]
    | ok ys =>
      rw [hx] at h
      simp only [Except.bind] at h
      simp [Except.map, Except.bind, convert_value, is_scalar_na,
        is_scalar_na_checks, naGate, h]
  | pylist xs =>
    have h := convert_rlist_idem xs
    simp only [convert_value, is_scalar_na, is_scalar_na_checks, naGate]
    cases hx : convert_rlist xs with
    | error e => simp [Except.map, Except.bind, hx]
    | ok ys =>
      rw [hx] at h
      simp only [Except.bind] at h
      simp [Except.map, Except.bind, convert_value, is_scalar_na,
        is_scalar_na_checks, naGate, h]
  | pydict kvs =>
    have h := convert_rkvs_idem kvs
    simp only [convert_value, is_scalar_na, is_scalar_na_checks, naGate]
    cases hx : convert_rkvs kvs with
    | error e => simp [Except.map, Except.bind, hx]
    | ok ys =>
      rw [hx] at h
      simp only [Except.bind] at h
      simp [Except.map, Except.bind, convert_value, is_scalar_na,
        is_scalar_na_checks, naGate, h]
  | scalarObj i isna iso af =>
    cases isna with
    | ok b => cases b <;> cases iso <;> rfl
    | error e => cases e <;> cases iso <;> rfl
/-- Idempotence for element-wise list conversion. -/
theorem convert_rlist_idem (xs : RValList) :
    (convert_rlist xs).bind convert_rlist = convert_rlist xs := by
  cases xs with
  | nil => rfl
  | cons x xs2 =>
    have hx := convert_value_idem x
    have hxs := convert_rlist_idem xs2
    simp only [convert_rlist]
    cases h1 : convert_value x with
    | error e => simp [Except.bind]
    | ok y =>
      rw [h1] at hx; simp only [Except.bind] at hx
      cases h2 : convert_rlist xs2 with
      | error e => simp [Except.bind]
      | ok ys =>
        rw [h2] at hxs; simp only [Except.bind] at hxs
        simp [Except.bind, convert_rlist, hx, hxs]
/-- Idempotence for per-key dict conversion. -/
theorem convert_rkvs_idem (kvs : RValKVs) :
    (convert_rkvs kvs).bind convert_rkvs = convert_rkvs kvs := by
  cases kvs with
  | nil => rfl
  | cons k x xs2 =>
    have hx := convert_value_idem x
    have hxs := convert_rkvs_idem xs2
    simp only [convert_rkvs]
    cases h1 : convert_value x with
    | error e => simp [Except.bind]
    | ok y =>
      rw [h1] at hx; simp only [Except.bind] at hx
      cases h2 : convert_rkvs xs2 with
      | error e => simp [Except.bind]
      | ok ys =>
        rw [h2] at hxs; simp only [Except.bind] at hxs
        simp [Except.bind, convert_rkvs, hx, hxs]
end

/-! Claim theorems. -/

/-- C1: the claim states that a row with a convertible coordinate pair
carries, in the emitted result, a distance_miles field.  The code
contradicts this: the loop of lines 219-231 does attach the rounded
distance to the cleaned dict (first conjunct, for every float model), but
Property declares no distance_miles field, so Property(**cleaned) drops
the key and the emitted row has no distance_miles at all (second
conjunct): a batch whose single row is the center itself, scraped
successfully with no radius, is returned without any distance
annotation. -/
theorem C1_distance_not_emitted (F : FloatOps) :
    rowHasKey
      (attach_distance F (PyF.finite 37, PyF.finite (-122))
        [("latitude", RVal.pyfloat (PyF.finite 37)),
         ("longitude", RVal.pyfloat (PyF.finite (-122)))])
      "distance_miles" = true
    ∧ search_properties F
        (.ok [[("latitude", RVal.npfloat (PyF.finite 37)),
               ("longitude", RVal.npfloat (PyF.finite (-122)))]]) none
      = .ok [[("latitude", RVal.pyfloat (PyF.finite 37)),
              ("longitude", RVal.pyfloat (PyF.finite (-122)))]] :=
  ⟨rfl, rfl⟩

/-- C2: the claim states that with a radius and a center the call returns
exactly the rows with distance at most the radius.  Instead, the radius
filter reads p.distance_miles, an attribute the Property model does not
declare, so the call raises ScraperError (wrapping the AttributeError)
whenever a radius is supplied and at least one row exists — here a batch
of one row at the center itself with radius 1000. -/
theorem C2_radius_filter_crashes (F : FloatOps) :
    search_properties F
      (.ok [[("latitude", RVal.npfloat (PyF.finite 37)),
             ("longitude", RVal.npfloat (PyF.finite (-122)))]]) (some 1000)
      = .error (.wrap .attributeError) := rfl

/-- C3 counterexample: the claim requires the center coordinates to be
convertible to finite floats, but the code only rejects NaN — the string
inf converts under float() to positive infinity, passes the isnan check
of line 51 and is accepted as the center latitude. -/
theorem C3_center_infinite_counterexample :
    get_center_coordinates floatOpsInf
      [[("latitude", RVal.pystr "inf"), ("longitude", RVal.pyint 0)]]
      = some (PyF.inf false, PyF.finite 0) := rfl

/-- C3 (amended): the center is the coordinate pair of the first row, in
given order, whose latitude and longitude are both present and convert
via float() without error to non-NaN values (infinities included); a row
whose conversion raises or yields NaN is skipped and the scan continues;
if no row qualifies no center exists, every row of a successfully
returned batch carries no distance_miles field, and — because of the
undeclared-attribute defect — a supplied radius makes the call fail
rather than pass rows through. -/
theorem C3_center_selection (F : FloatOps) (rows : List Row) :
    (∀ c, get_center_coordinates F rows = some c ↔
      ∃ pre r suf, rows = pre ++ r :: suf ∧
        (∀ p ∈ pre, rowCenterCand F p = none) ∧ rowCenterCand F r = some c)
    ∧ (get_center_coordinates F rows = none ↔
        ∀ p ∈ rows, rowCenterCand F p = none)
    ∧ (get_center_coordinates F rows = none →
        ∀ out, search_properties_run F rows none = .ok out →
          ∀ p ∈ out, rowHasKey p "distance_miles" = false)
    ∧ (get_center_coordinates F rows = none → rows ≠ [] →
        ∀ r : ℚ, isOkResult (search_properties_run F rows (some r)) = false) := by
  refine ⟨get_center_some_iff F rows, get_center_none_iff F rows, ?_, ?_⟩
  · intro hc out hout p hp
    rw [run_none_eq] at hout
    cases he : rows.isEmpty with
    | true =>
      rw [he] at hout
      simp only [if_true] at hout
      cases hout
      simp at hp
    | false =>
      rw [he] at hout
      simp only [Bool.false_eq_true, if_false] at hout
      obtain ⟨rec, -, hcr⟩ := build_properties_mem F _ rows out hout p hp
      exact clean_record_no_distance F _ rec p hcr
  · intro _ hne r
    exact run_some_not_ok F rows r hne

/-- C3 witness: applying the amended theorem at a concrete one-row batch
without coordinates. -/
theorem C3_center_selection_witness :
    rowHasKey [("beds", RVal.pyint 2)] "distance_miles" = false :=
  (C3_center_selection floatOps0 [[("beds", RVal.pyint 2)]]).2.2.1 rfl
    [[("beds", RVal.pyint 2)]] rfl [("beds", RVal.pyint 2)] (by simp)

/-- C4: the claim states that whenever a radius is supplied the surviving
rows are returned stable-sorted by distance.  Instead the call fails:
with a center present the radius filter already raises on the undeclared
distance_miles attribute (and the sort key would raise the same way), so
a two-row batch with valid coordinates and radius 10000 yields
ScraperError instead of a sorted list. -/
theorem C4_radius_sort_crashes (F : FloatOps) :
    search_properties F
      (.ok [[("latitude", RVal.npfloat (PyF.finite 37)),
             ("longitude", RVal.npfloat (PyF.finite (-122)))],
            [("latitude", RVal.npfloat (PyF.finite 38)),
             ("longitude", RVal.npfloat (PyF.finite (-122)))]]) (some 10000)
      = .error (.wrap .attributeError) := rfl

/-- C5 counterexample: one row without coordinates and radius 1 — the
claim says the result is the empty list, but the call does not return ok
at all (the sort key raises on the undeclared attribute; even before that
defect, line 236 skips the filter entirely when no center exists, so the
dict-level result would be all rows, not the empty list). -/
theorem C5_radius_no_center_counterexample :
    search_properties_run floatOps0 [[("beds", RVal.pyint 2)]] (some 1)
      ≠ .ok [] :=
  fun h => nomatch h

/-- C5 (amended): when no input row carries valid coordinates there is no
center, no emitted row of a successful no-radius call has a
distance_miles field and the batch keeps its length; when a radius is
supplied and at least one row exists the call fails instead of returning
the empty list. -/
theorem C5_no_valid_coords (F : FloatOps) (rows : List Row)
    (h : get_center_coordinates F rows = none) :
    (∀ out, search_properties_run F rows none = .ok out →
      out.length = rows.length ∧
      ∀ p ∈ out, rowHasKey p "distance_miles" = false)
    ∧ (rows ≠ [] → ∀ r : ℚ,
        isOkResult (search_properties_run F rows (some r)) = false) := by
  constructor
  · intro out hout
    rw [run_none_eq] at hout
    cases he : rows.isEmpty with
    | true =>
      rw [he] at hout
      simp only [if_true] at hout
      cases hout
      constructor
      · cases rows with
        | nil => rfl
        | cons a as => cases he
      · intro p hp; simp at hp
    | false =>
      rw [he] at hout
      simp only [Bool.false_eq_true, if_false] at hout
      refine ⟨build_properties_length F _ rows out hout, ?_⟩
      intro p hp
      obtain ⟨rec, -, hcr⟩ := build_properties_mem F _ rows out hout p hp
      exact clean_record_no_distance F _ rec p hcr
  · intro hne r
    exact run_some_not_ok F rows r hne

/-- C5 witness: the amended theorem applied at a concrete batch. -/
theorem C5_no_valid_coords_witness :
    isOkResult (search_properties_run floatOps0
      [[("beds", RVal.pyint 2)]] (some 1)) = false :=
  (C5_no_valid_coords floatOps0 [[("beds", RVal.pyint 2)]] rfl).2 (by simp) 1

/-- C6 counterexample: a non-NA scalar the converter does not recognize
(no isoformat, not numpy, not composite) is passed through unchanged by
line 104 and is not JSON-safe, so the claimed closed type set is
violated. -/
theorem C6_foreign_scalar_counterexample :
    convert_row [("x", RVal.scalarObj 0 (.ok false) none none)]
      = .ok [("x", RVal.scalarObj 0 (.ok false) none none)]
    ∧ jsonSafeV (RVal.scalarObj 0 (.ok false) none none) = false :=
  ⟨rfl, rfl⟩

/-- C6 (amended): every value of a successfully normalized row is
JSON-safe — absent, bool, int, non-NaN float, text, sequence or mapping,
recursively — or a non-NA foreign scalar passed through unchanged by the
final fall-through rule; in particular no NaN and no NA sentinel remains
anywhere. -/
theorem C6_normalized_shape (record : Row) (out : Row)
    (h : convert_row record = .ok out) :
    ∀ kv ∈ out, normalShapeV kv.2 = true :=
  convert_row_shape record out h

/-- C6 witness: the amended theorem applied at a concrete row. -/
theorem C6_normalized_shape_witness : normalShapeV (RVal.pyint 5) = true :=
  C6_normalized_shape [("beds", RVal.pyint 5)] [("beds", RVal.pyint 5)] rfl
    ("beds", RVal.pyint 5) (by simp)

/-- C7: the claim states that only a scrape failure is surfaced and that
no row failure aborts the batch.  The code does wrap a scrape failure
with its cause (second conjunct), but it also surfaces its own
post-processing failure: with a radius and one valid row, the undeclared
distance_miles attribute raises inside the filter and line 248 wraps that
AttributeError into the same ScraperError, aborting the whole batch
(first conjunct). -/
theorem C7_nonscrape_failure_surfaced (F : FloatOps) :
    search_properties F
      (.ok [[("latitude", RVal.npfloat (PyF.finite 37)),
             ("longitude", RVal.npfloat (PyF.finite (-122)))]]) (some 2)
      = .error (.wrap .attributeError)
    ∧ search_properties F (.error .otherError) none
      = .error (.wrap .otherError) :=
  ⟨rfl, rfl⟩

/-- C8: value normalization is idempotent — re-converting the result of
convert_value is a no-op, stated in bind form so that a first-pass
exception is covered too. -/
theorem C8_convert_value_idempotent (v : RVal) :
    (convert_value v).bind convert_value = convert_value v :=
  convert_value_idem v

/-- C9 counterexample: the claim says NA-detection never raises for any
input, but the except clause of line 71 catches only ValueError and
TypeError — a scalar whose pandas NA probe raises any other exception
class (for example an ArithmeticError from a comparison) escapes
is_scalar_na. -/
theorem C9_na_probe_counterexample :
    is_scalar_na (RVal.scalarObj 0 (.error .otherError) none none)
      = .error .otherError := rfl

/-- C9 (amended): is_scalar_na never raises a ValueError or TypeError —
any such failure during detection yields False — and it returns False for
every sequence, mapping or array value, even an empty one, so empty
composites normalize to empty composites rather than to absent. -/
theorem C9_na_probe_guarded (v : RVal) :
    (∀ e, is_scalar_na v = .error e → e ≠ .valueError ∧ e ≠ .typeError)
    ∧ (isComposite v = true → is_scalar_na v = .ok false) := by
  constructor
  · intro e he
    cases v with
    | scalarObj i isna iso af =>
      cases isna with
      | ok b => cases he
      | error e2 =>
        cases e2 with
        | valueError => cases he
        | typeError => cases he
        | attributeError => cases he; exact ⟨by simp, by simp⟩
        | validationError => cases he; exact ⟨by simp, by simp⟩
        | otherError => cases he; exact ⟨by simp, by simp⟩
    | pynone => cases he
    | pybool b => cases he
    | pyint n => cases he
    | pyfloat f => cases f <;> cases he
    | pystr s => cases he
    | timestamp iso => cases he
    | npint n => cases he
    | npfloat f => cases f <;> cases he
    | npbool b => cases he
    | nparray xs => cases he
    | pylist xs => cases he
    | pydict kvs => cases he
  · intro hcomp
    cases v with
    | pylist xs => rfl
    | nparray xs => rfl
    | pydict kvs => rfl
    | pynone => cases hcomp
    | pybool b => cases hcomp
    | pyint n => cases hcomp
    | pyfloat f => cases hcomp
    | pystr s => cases hcomp
    | timestamp iso => cases hcomp
    | npint n => cases hcomp
    | npfloat f => cases hcomp
    | npbool b => cases hcomp
    | scalarObj i isna iso af => cases hcomp

/-- C9 witness: the amended theorem applied at the empty list. -/
theorem C9_na_probe_guarded_witness :
    is_scalar_na (RVal.pylist .nil) = .ok false :=
  (C9_na_probe_guarded (RVal.pylist .nil)).2 rfl

/-- C10 counterexample: the emitted row is not the normalized input row
with an optional distance annotation — an undeclared column (zzz) is
stripped by the Property construction even though its normalized value
was unchanged. -/
theorem C10_stripping_counterexample :
    search_properties floatOps0
      (.ok [[("beds", RVal.pyint 2), ("zzz", RVal.pyint 1)]]) none
      = .ok [[("beds", RVal.pyint 2)]]
    ∧ convert_row [("beds", RVal.pyint 2), ("zzz", RVal.pyint 1)]
      = .ok [("beds", RVal.pyint 2), ("zzz", RVal.pyint 1)] :=
  ⟨rfl, rfl⟩

/-- C10 (amended): the pipeline never invents or duplicates rows — the
output never exceeds the input in length; without a radius the i-th
output row is exactly the processed (normalized, annotated, then
model-validated and stripped) form of the i-th input row; with a radius a
successful result is only possible for an empty batch, hence empty. -/
theorem C10_no_invented_rows (F : FloatOps) (rows : List Row)
    (radius : Option ℚ) (out : List Row)
    (h : search_properties_run F rows radius = .ok out) :
    out.length ≤ rows.length
    ∧ (radius = none → out.length = rows.length ∧
        ∀ i, (hi : i < out.length) → (hr : i < rows.length) →
          clean_record F (get_center_coordinates F rows) (rows.get ⟨i, hr⟩)
            = .ok (out.get ⟨i, hi⟩))
    ∧ (∀ r : ℚ, radius = some r → out = []) := by
  cases radius with
  | none =>
    rw [run_none_eq] at h
    cases he : rows.isEmpty with
    | true =>
      rw [he] at h
      simp only [if_true] at h
      cases h
      have hr0 : rows = [] := by
        cases rows with
        | nil => rfl
        | cons a as => cases he
      subst hr0
      refine ⟨by simp, fun _ => ⟨rfl, ?_⟩, fun r hr => by cases hr⟩
      intro i hi hr
      exact absurd hr (by simp)
    | false =>
      rw [he] at h
      simp only [Bool.false_eq_true, if_false] at h
      have hlen := build_properties_length F _ rows out h
      refine ⟨le_of_eq hlen, fun _ => ⟨hlen, ?_⟩, fun r hr => by cases hr⟩
      exact build_properties_get F _ rows out h
  | some r =>
    cases rows with
    | nil =>
      cases h
      refine ⟨by simp, ?_, ?_⟩
      · intro hn; cases hn
      · intro r2 hr2; rfl
    | cons a as =>
      have hbad := run_some_not_ok F (a :: as) r (by simp)
      rw [h] at hbad
      cases hbad

/-- C10 witness: the amended theorem applied at a concrete one-row batch
without a radius. -/
theorem C10_no_invented_rows_witness :
    clean_record floatOps0 none [("beds", RVal.pyint 2)]
      = .ok [("beds", RVal.pyint 2)] :=
  ((C10_no_invented_rows floatOps0 [[("beds", RVal.pyint 2)]] none
      [[("beds", RVal.pyint 2)]] rfl).2.1 rfl).2 0 (by simp) (by simp)

end RealEstate
